import Mathlib

/-!
Verification development for the file_analyzer MCP server (src/main.py).

The server exposes four dataset tools (list_data_files, summarize_csv_file /
summarize_parquet_file, analyze_csv_data, create_sample_data) and one resource
(data://schema), all operating on files resolved against one fixed base
directory DATA_DIR.

Shallow embedding choices, each traceable to the source:
  * POSIX paths are lists of path components.  `DATA_DIR / filename`
    (pathlib `/`) keeps `filename` verbatim when it is relative and replaces
    the base when `filename` is absolute; the operating system then resolves
    `.` and `..` segments on access.  `resolvePath` composes the join with
    that normalisation, so it denotes the real file the OS touches.
  * The file system is an ordered association list from resolved paths to
    entries (regular file or directory); its order stands in for the
    (implementation-defined but per-run deterministic) directory order seen
    by `DATA_DIR.glob("*")`.  Note pathlib's `glob("*")` does not match
    names that start with a dot.
  * pandas is the external collaborator the spec scopes out: a stored table
    is either well-formed in one of the two formats or junk; reading with
    the wrong reader, reading junk, or reading a directory raises, which the
    Python code catches and renders as an error string.  The purely textual
    renderers (`describe`, `head`, `dtypes`) and the possibility that
    `to_csv` / `to_parquet` raises (permissions, target is a directory,
    missing parent directory) are abstracted into an `ExtLib` record that
    every theorem quantifies over.
  * `random.randint` / `random.choice` and `datetime.now()` inside
    create_sample_data are abstracted into a `RandEnv` record.
  * Every handler is a total Lean function returning `String` (plus the new
    file-system state for the one writer), mirroring the source's
    catch-everything policy: no failure escapes as an exception.
-/

/-- A POSIX path, as the list of its components from the root. -/
abbrev PathC := List String

/-- The fixed base directory `DATA_DIR = Path(__file__).resolve().parent / "data"`
(src/main.py line 16), as a concrete resolved path. -/
def dataDir : PathC := ["srv", "file_analyzer", "data"]

/-- Split a character list at every `/` (the separator handling inside
pathlib's join). -/
def splitSlashAux (acc : List Char) : List Char → List String
  | [] => [String.mk acc.reverse]
  | c :: cs =>
    if c = '/' then String.mk acc.reverse :: splitSlashAux [] cs
    else splitSlashAux (c :: acc) cs

/-- The non-empty components of a filename string (pathlib drops empty
components arising from repeated or trailing slashes). -/
def pathParts (s : String) : List String :=
  (splitSlashAux [] s.data).filter fun c => decide (c ≠ "")

/-- Whether a filename is absolute (starts with `/`). -/
def isAbsolute (s : String) : Bool :=
  match s.data with
  | '/' :: _ => true
  | _ => false

/-- One step of the operating system's lexical resolution of a path:
`.` is dropped, `..` pops the last component (a no-op at the root). -/
def normStep (acc : PathC) (c : String) : PathC :=
  if c = "." then acc else if c = ".." then acc.dropLast else acc ++ [c]

/-- Resolve `.` and `..` segments of an absolute component list. -/
def normalizeComponents (cs : List String) : PathC :=
  cs.foldl normStep []

/-- The real path accessed for `DATA_DIR / filename` (src/main.py lines 24,
37, 95, 144): pathlib's join followed by the OS's resolution of `.` and
`..`.  A relative filename is appended to `dataDir`; an absolute filename
replaces the base entirely. -/
def resolvePath (filename : String) : PathC :=
  if isAbsolute filename then normalizeComponents (pathParts filename)
  else normalizeComponents (dataDir ++ pathParts filename)

/-- The sandbox predicate of the spec: the path lies below `DATA_DIR`. -/
def insideData (p : PathC) : Prop := dataDir <+: p

instance (p : PathC) : Decidable (insideData p) := by
  unfold insideData; infer_instance

/-- The two on-disk formats the server understands. -/
inductive FileFormat
  | csv
  | parquet
deriving DecidableEq

/-- Display name of a format, as it appears in the summary sentences. -/
def formatName : FileFormat → String
  | .csv => "CSV"
  | .parquet => "Parquet"

/-- The external table type: column names plus rows of cells.  Cell values
are opaque text; only shape and column names matter to the server. -/
structure Table where
  columns : List String
  rows : List (List String)
deriving DecidableEq

/-- Contents of a regular file: a table well-formed in one format, or bytes
no reader can parse. -/
inductive FileContent
  | table (fmt : FileFormat) (t : Table)
  | junk (cause : String)
deriving DecidableEq

/-- A directory entry: a regular file or a directory. -/
inductive FsEntry
  | file (content : FileContent)
  | dir
deriving DecidableEq

/-- Whether an entry is a regular file (`Path.is_file`). -/
def FsEntry.isFile : FsEntry → Bool
  | .file _ => true
  | .dir => false

/-- The file system: an ordered association list from resolved paths to
entries.  The list order models the directory order `glob` returns. -/
abbrev Fs := List (PathC × FsEntry)

/-- Look up the entry at a path (`Path.exists` is `isSome` of this). -/
def Fs.lookup : Fs → PathC → Option FsEntry
  | [], _ => none
  | pe :: rest, p => if pe.1 = p then some pe.2 else Fs.lookup rest p

/-- Store an entry at a path, overwriting in place if the path exists. -/
def Fs.write : Fs → PathC → FsEntry → Fs
  | [], p, e => [(p, e)]
  | pe :: rest, p, e =>
    if pe.1 = p then (p, e) :: rest else pe :: Fs.write rest p e

/-- The out-of-scope external collaborators of the spec (pandas renderers
and serializer faults).  `writeErr p fmt = some e` models `to_csv` /
`to_parquet` raising an exception with message `e` at path `p`. -/
structure ExtLib where
  describeStr : Table → String
  headStr : Table → String
  dtypesStr : Table → String
  writeErr : PathC → FileFormat → Option String

/-- The sources of nondeterminism inside create_sample_data (src/main.py
lines 138-140): per-row random score, random category, random past date. -/
structure RandEnv where
  score : Nat → Nat
  category : Nat → String
  dateStr : Nat → String

/-- Loading a directory entry with the reader for `fmt`
(`pd.read_csv` / `pd.read_parquet`): succeeds exactly on a regular file
well-formed in that format; every other case raises in Python and is an
error value here. -/
def readEntryAs (fmt : FileFormat) : FsEntry → Except String Table
  | .dir => .error "Is a directory"
  | .file (.junk cause) => .error cause
  | .file (.table f t) =>
    if f = fmt then .ok t else .error ("could not parse file as " ++ formatName fmt)

/-- Python's `str.endswith`, on the character list of the string. -/
def strEndsWith (s suffixStr : String) : Bool :=
  suffixStr.data.isSuffixOf s.data

/-- read_csv_summary (src/main.py lines 22-33): not-found check, then load,
with any load failure rendered as an error string. -/
def read_csv_summary (fs : Fs) (filename : String) : String :=
  match Fs.lookup fs (resolvePath filename) with
  | none => "Error: File '" ++ filename ++ "' not found in data directory."
  | some entry =>
    match readEntryAs .csv entry with
    | .ok df =>
      "CSV file '" ++ filename ++ "' has " ++ toString df.rows.length ++
        " rows and " ++ toString df.columns.length ++ " columns. Columns: " ++
        String.intercalate ", " df.columns
    | .error e => "Error reading CSV file '" ++ filename ++ "': " ++ e

/-- read_parquet_summary (src/main.py lines 35-46). -/
def read_parquet_summary (fs : Fs) (filename : String) : String :=
  match Fs.lookup fs (resolvePath filename) with
  | none => "Error: File '" ++ filename ++ "' not found in data directory."
  | some entry =>
    match readEntryAs .parquet entry with
    | .ok df =>
      "Parquet file '" ++ filename ++ "' has " ++ toString df.rows.length ++
        " rows and " ++ toString df.columns.length ++ " columns. Columns: " ++
        String.intercalate ", " df.columns
    | .error e => "Error reading Parquet file '" ++ filename ++ "': " ++ e

/-- The summarize_csv_file tool (src/main.py lines 63-72) delegates to
read_csv_summary. -/
def summarize_csv_file : Fs → String → String := read_csv_summary

/-- The summarize_parquet_file tool (src/main.py lines 74-83) delegates to
read_parquet_summary. -/
def summarize_parquet_file : Fs → String → String := read_parquet_summary

/-- analyze_csv_data (src/main.py lines 85-118): not-found check, load,
then the four-way operation dispatch, with the unknown-operation message as
the final branch.  All load failures become error strings. -/
def analyze_csv_data (lib : ExtLib) (fs : Fs) (filename operation : String) : String :=
  match Fs.lookup fs (resolvePath filename) with
  | none => "Error: File '" ++ filename ++ "' not found."
  | some entry =>
    match readEntryAs .csv entry with
    | .error e => "Error analyzing " ++ filename ++ ": " ++ e
    | .ok df =>
      if operation = "describe" then
        "Statistical description of " ++ filename ++ ":\n" ++ lib.describeStr df
      else if operation = "head" then
        "First 5 rows of " ++ filename ++ ":\n" ++ lib.headStr df
      else if operation = "info" then
        "Info for " ++ filename ++ ":\n" ++ "Shape: (" ++ toString df.rows.length ++
          ", " ++ toString df.columns.length ++ ")\n" ++ "Columns: [" ++
          String.intercalate ", " (df.columns.map fun c => "'" ++ c ++ "'") ++
          "]\n" ++ "Data types:\n" ++ lib.dtypesStr df
      else if operation = "columns" then
        "Columns in " ++ filename ++ ": " ++ String.intercalate ", " df.columns
      else
        "Unknown operation: " ++ operation ++ ". Available: describe, head, info, columns"

/-- The table create_sample_data synthesizes (src/main.py lines 135-141):
`id` 1..rows, `name` `User_i`, and three columns drawn from the random
environment. -/
def sampleTable (env : RandEnv) (rows : Nat) : Table where
  columns := ["id", "name", "score", "category", "created_date"]
  rows := (List.range rows).map fun i =>
    [toString (i + 1), "User_" ++ toString (i + 1), toString (env.score i),
      env.category i, env.dateStr i]

/-- create_sample_data (src/main.py lines 120-156): builds the table, then
dispatches on the filename suffix; an unsupported suffix is rejected before
any write, a failing write ends in the catch-all error string, and a
successful write stores the table at the resolved path. -/
def create_sample_data (lib : ExtLib) (env : RandEnv) (fs : Fs)
    (filename : String) (rows : Nat) : String × Fs :=
  let df := sampleTable env rows
  let p := resolvePath filename
  if strEndsWith filename ".csv" then
    match lib.writeErr p .csv with
    | some e => ("Error creating sample data: " ++ e, fs)
    | none =>
      ("Created " ++ filename ++ " with " ++ toString rows ++ " rows and " ++
        toString df.columns.length ++ " columns.", Fs.write fs p (.file (.table .csv df)))
  else if strEndsWith filename ".parquet" then
    match lib.writeErr p .parquet with
    | some e => ("Error creating sample data: " ++ e, fs)
    | none =>
      ("Created " ++ filename ++ " with " ++ toString rows ++ " rows and " ++
        toString df.columns.length ++ " columns.", Fs.write fs p (.file (.table .parquet df)))
  else
    ("Error: Filename must end with .csv or .parquet", fs)

/-- The name of `p` when `p` is a direct child of the data directory,
otherwise none (the paths `DATA_DIR.glob("*")` can yield). -/
def childName (p : PathC) : Option String :=
  if p.take dataDir.length = dataDir then
    match p.drop dataDir.length with
    | [n] => some n
    | _ => none
  else none

/-- Whether a name is hidden (dotfile); pathlib's `glob("*")` skips these. -/
def isHidden (n : String) : Bool :=
  match n.data with
  | '.' :: _ => true
  | _ => false

/-- `list(DATA_DIR.glob("*"))` (src/main.py line 56): the non-hidden direct
children of the data directory, files and directories alike, in directory
order. -/
def globStar (fs : Fs) : List (String × FsEntry) :=
  (fs.filterMap fun pe => (childName pe.1).map fun n => (n, pe.2)).filter
    fun x => !isHidden x.1

/-- list_data_files (src/main.py lines 49-61): the empty-directory check is
on the raw glob result; the regular-file filter only shapes the joined
name list. -/
def list_data_files (fs : Fs) : String :=
  let files := globStar fs
  if files.isEmpty then "No data files found in the data directory."
  else
    "Available data files: " ++
      String.intercalate ", " ((files.filter fun x => x.2.isFile).map Prod.fst)

/-- Specification-side description of what should be listed: the names of
exactly the non-hidden regular files among the data directory's direct
children, in directory order. -/
def visibleFileNames (fs : Fs) : List String :=
  fs.filterMap fun pe =>
    match childName pe.1 with
    | some n => if !isHidden n && pe.2.isFile then some n else none
    | none => none

/-- get_data_schema (src/main.py lines 159-172): `json.dumps` of a fixed
literal dictionary, ignoring all server state. -/
def get_data_schema (_fs : Fs) : String :=
  "\x7b\n  \"description\": \"Schema information for data files\",\n  \"supported_formats\": [\n    \"CSV\",\n    \"Parquet\"\n  ],\n  \"sample_structure\": \x7b\n    \"id\": \"integer - unique identifier\",\n    \"name\": \"string - user name\",\n    \"email\": \"string - email address\",\n    \"signup_date\": \"date - registration date\"\n  \x7d\n\x7d"

/-- Substring containment, used to state the spec's "result contains
`not found` and the filename". -/
def containsSubstring (needle s : String) : Prop :=
  ∃ a b : String, s = a ++ needle ++ b

/-- An external library instance for concrete evaluations: trivial
renderers, writes always succeed. -/
def lib0 : ExtLib where
  describeStr := fun _ => ""
  headStr := fun _ => ""
  dtypesStr := fun _ => ""
  writeErr := fun _ _ => none

/-- An external library instance whose writes all fail. -/
def libFail : ExtLib where
  describeStr := fun _ => ""
  headStr := fun _ => ""
  dtypesStr := fun _ => ""
  writeErr := fun _ _ => some "disk full"

/-- A concrete random environment. -/
def env0 : RandEnv where
  score := fun _ => 7
  category := fun _ => "A"
  dateStr := fun _ => "2025-04-01"

/-- A one-cell table for concrete file systems. -/
def tbl0 : Table where
  columns := ["id"]
  rows := [["1"]]

/-- A file system holding one well-formed CSV file `sample.csv`. -/
def fsCsv : Fs := [(["srv", "file_analyzer", "data", "sample.csv"], .file (.table .csv tbl0))]

/-- A file system holding one unparseable file `bad.csv`. -/
def fsJunk : Fs := [(["srv", "file_analyzer", "data", "bad.csv"], .file (.junk "parse error"))]

/-- A file system whose data directory holds one subdirectory and no
regular file. -/
def fsDirOnly : Fs := [(["srv", "file_analyzer", "data", "subdir"], .dir)]

/-- A file system whose data directory holds exactly one regular file, a
hidden one. -/
def fsHidden : Fs := [(["srv", "file_analyzer", "data", ".hidden.csv"], .file (.table .csv tbl0))]

theorem Fs.lookup_write_self (fs : Fs) (p : PathC) (e : FsEntry) :
    Fs.lookup (Fs.write fs p e) p = some e := by
  induction fs with
  | nil => simp [Fs.write, Fs.lookup]
  | cons pe rest ih =>
    by_cases h : pe.1 = p
    · simp [Fs.write, Fs.lookup, h]
    · simp [Fs.write, Fs.lookup, h, ih]

theorem Fs.lookup_write_ne (fs : Fs) (p q : PathC) (e : FsEntry) (h : q ≠ p) :
    Fs.lookup (Fs.write fs p e) q = Fs.lookup fs q := by
  have h' : p ≠ q := Ne.symm h
  induction fs with
  | nil => simp [Fs.write, Fs.lookup, h']
  | cons pe rest ih =>
    by_cases h1 : pe.1 = p
    · by_cases h2 : pe.1 = q
      · exact absurd (h2.symm.trans h1) h
      · simp [Fs.write, Fs.lookup, h1, h2, h']
    · by_cases h2 : pe.1 = q
      · simp [Fs.write, Fs.lookup, h1, h2, h]
      · simp [Fs.write, Fs.lookup, h1, h2, ih]

theorem ne_of_data_head (s t : String) (x y : Char)
    (hs : s.data.head? = some x) (ht : t.data.head? = some y) (hxy : x ≠ y) :
    s ≠ t := by
  intro h
  rw [h, ht] at hs
  exact hxy (Option.some.inj hs).symm

theorem strEndsWith_getLast (g t : String) (c : Char)
    (h : strEndsWith g t = true) (hc : t.data.getLast? = some c) :
    g.data.getLast? = some c := by
  unfold strEndsWith at h
  rw [List.isSuffixOf_iff_suffix] at h
  obtain ⟨u, hu⟩ := h
  rw [← hu, List.getLast?_append, hc]
  rfl

theorem endsWith_parquet_not_csv (g : String)
    (h : strEndsWith g ".parquet" = true) : strEndsWith g ".csv" = false := by
  cases hcsv : strEndsWith g ".csv" with
  | false => rfl
  | true =>
    have h1 := strEndsWith_getLast g ".parquet" 't' h (by decide)
    have h2 := strEndsWith_getLast g ".csv" 'v' hcsv (by decide)
    rw [h1] at h2
    exact absurd (Option.some.inj h2) (by decide)

theorem foldl_normStep_isPrefix (cs : List String) (acc : PathC)
    (hc : ".." ∉ cs) : acc <+: List.foldl normStep acc cs := by
  induction cs generalizing acc with
  | nil => exact List.prefix_refl acc
  | cons c cs ih =>
    rw [List.mem_cons, not_or] at hc
    obtain ⟨hc1, hc2⟩ := hc
    by_cases hdot : c = "."
    · rw [List.foldl_cons]
      have hstep : normStep acc c = acc := by simp [normStep, hdot]
      rw [hstep]
      exact ih acc hc2
    · rw [List.foldl_cons]
      have hc1' : c ≠ ".." := Ne.symm hc1
      have hstep : normStep acc c = acc ++ [c] := by
        simp [normStep, hdot, hc1']
      rw [hstep]
      exact (List.prefix_append acc [c]).trans (ih (acc ++ [c]) hc2)

theorem visibleFileNames_eq (fs : Fs) :
    ((globStar fs).filter fun x => x.2.isFile).map Prod.fst = visibleFileNames fs := by
  induction fs with
  | nil => rfl
  | cons pe rest ih =>
    unfold globStar visibleFileNames at ih ⊢
    cases hcn : childName pe.1 with
    | none => simpa [List.filterMap_cons, hcn] using ih
    | some n =>
      by_cases hh : isHidden n = true
      · simpa [List.filterMap_cons, hcn, hh] using ih
      · cases hfe : pe.2.isFile with
        | false =>
          simp only [Bool.not_eq_true] at hh
          simpa [List.filterMap_cons, hcn, hh, hfe] using ih
        | true =>
          simp only [Bool.not_eq_true] at hh
          simpa [List.filterMap_cons, hcn, hh, hfe] using ih

/-- Claim C5: for every filename whose suffix is neither `.csv` nor
`.parquet`, create_sample_data returns the explicit rejection string and
leaves the file system exactly as it was, so no file appears that did not
exist before. -/
theorem create_rejects_bad_suffix (lib : ExtLib) (env : RandEnv) (fs : Fs)
    (f : String) (n : Nat)
    (h1 : strEndsWith f ".csv" = false) (h2 : strEndsWith f ".parquet" = false) :
    (create_sample_data lib env fs f n).1 = "Error: Filename must end with .csv or .parquet" ∧
    (create_sample_data lib env fs f n).2 = fs := by
  unfold create_sample_data
  simp [h1, h2]

/-- Witness for C5 at the spec's own example `x.txt`. -/
theorem create_rejects_bad_suffix_witness :
    (create_sample_data lib0 env0 [] "x.txt" 10).1 =
      "Error: Filename must end with .csv or .parquet" ∧
    (create_sample_data lib0 env0 [] "x.txt" 10).2 = [] :=
  create_rejects_bad_suffix lib0 env0 [] "x.txt" 10 (by decide) (by decide)

/-- Claim C6: for every operation string outside describe/head/info/columns,
analyze_csv_data on an existing, loadable CSV file returns exactly the
message enumerating the four valid operation names (and, the embedding
being total, never raises). -/
theorem analyze_unknown_operation (lib : ExtLib) (fs : Fs) (f op : String) (t : Table)
    (hlook : Fs.lookup fs (resolvePath f) = some (.file (.table .csv t)))
    (h1 : op ≠ "describe") (h2 : op ≠ "head") (h3 : op ≠ "info") (h4 : op ≠ "columns") :
    analyze_csv_data lib fs f op =
      "Unknown operation: " ++ op ++ ". Available: describe, head, info, columns" := by
  unfold analyze_csv_data
  rw [hlook]
  simp [readEntryAs, h1, h2, h3, h4]

/-- Witness for C6 at the spec's own example: `sample.csv` with operation
`bogus`. -/
theorem analyze_unknown_operation_witness :
    analyze_csv_data lib0 fsCsv "sample.csv" "bogus" =
      "Unknown operation: bogus. Available: describe, head, info, columns" :=
  analyze_unknown_operation lib0 fsCsv "sample.csv" "bogus" tbl0 (by decide)
    (by decide) (by decide) (by decide) (by decide)

/-- Claim C9: the existence check precedes operation validation, so a
missing file yields the not-found string for every operation, valid or not,
and never the unknown-operation message. -/
theorem analyze_missing_file_first (lib : ExtLib) (fs : Fs) (f op : String)
    (h : Fs.lookup fs (resolvePath f) = none) :
    analyze_csv_data lib fs f op = "Error: File '" ++ f ++ "' not found." ∧
    ∀ op2 : String, analyze_csv_data lib fs f op ≠
      "Unknown operation: " ++ op2 ++ ". Available: describe, head, info, columns" := by
  have heq : analyze_csv_data lib fs f op = "Error: File '" ++ f ++ "' not found." := by
    unfold analyze_csv_data
    rw [h]
  refine ⟨heq, fun op2 => ?_⟩
  rw [heq]
  exact ne_of_data_head _ _ 'E' 'U' rfl rfl (by decide)

/-- Witness for C9: a missing file with an invalid operation still reports
not-found. -/
theorem analyze_missing_file_first_witness :
    analyze_csv_data lib0 [] "missing.csv" "bogus" =
      "Error: File 'missing.csv' not found." ∧
    analyze_csv_data lib0 [] "missing.csv" "bogus" ≠
      "Unknown operation: bogus. Available: describe, head, info, columns" := by
  have h := analyze_missing_file_first lib0 [] "missing.csv" "bogus" (by decide)
  exact ⟨h.1, h.2 "bogus"⟩

/-- Claim C7: for a filename absent from the base directory, both summarize
tools return the fixed not-found error string, which contains the substring
`not found` and the requested filename; the embedding is total, so nothing
is raised to the caller. -/
theorem summarize_missing_not_found (fs : Fs) (f : String)
    (h : Fs.lookup fs (resolvePath f) = none) :
    summarize_csv_file fs f = "Error: File '" ++ f ++ "' not found in data directory." ∧
    summarize_parquet_file fs f = "Error: File '" ++ f ++ "' not found in data directory." ∧
    containsSubstring "not found" (summarize_csv_file fs f) ∧
    containsSubstring f (summarize_csv_file fs f) ∧
    containsSubstring "not found" (summarize_parquet_file fs f) ∧
    containsSubstring f (summarize_parquet_file fs f) := by
  have hc : summarize_csv_file fs f =
      "Error: File '" ++ f ++ "' not found in data directory." := by
    unfold summarize_csv_file read_csv_summary
    rw [h]
  have hp : summarize_parquet_file fs f =
      "Error: File '" ++ f ++ "' not found in data directory." := by
    unfold summarize_parquet_file read_parquet_summary
    rw [h]
  refine ⟨hc, hp, ?_, ?_, ?_, ?_⟩
  · exact ⟨"Error: File '" ++ f ++ "' ", " in data directory.", by
      rw [hc]; simp [String.append_assoc]⟩
  · exact ⟨"Error: File '", "' not found in data directory.", by rw [hc]⟩
  · exact ⟨"Error: File '" ++ f ++ "' ", " in data directory.", by
      rw [hp]; simp [String.append_assoc]⟩
  · exact ⟨"Error: File '", "' not found in data directory.", by rw [hp]⟩

/-- Witness for C7 at the spec's own example `missing.csv`. -/
theorem summarize_missing_not_found_witness :
    summarize_csv_file [] "missing.csv" =
      "Error: File 'missing.csv' not found in data directory." ∧
    containsSubstring "not found" (summarize_csv_file [] "missing.csv") ∧
    containsSubstring "missing.csv" (summarize_csv_file [] "missing.csv") := by
  have h := summarize_missing_not_found [] "missing.csv" (by decide)
  exact ⟨h.1, h.2.2.1, h.2.2.2.1⟩

/-- Claim C8: reading the `data://schema` resource is deterministic: its
provider is a constant function of the server state, so any two invocations
return the identical string. -/
theorem schema_resource_deterministic (fs1 fs2 : Fs) :
    get_data_schema fs1 = get_data_schema fs2 := rfl

/-- Claim C2: creating a sample file of either supported format and then
summarizing it with the matching tool reports exactly `n` rows and 5
columns named id, name, score, category, created_date; in particular the
parquet round trip reports the same counts as the csv one. -/
theorem create_then_summarize_roundtrip (lib : ExtLib) (env : RandEnv) (fs : Fs)
    (f g : String) (n : Nat)
    (hf : strEndsWith f ".csv" = true)
    (hg : strEndsWith g ".parquet" = true)
    (hwf : lib.writeErr (resolvePath f) .csv = none)
    (hwg : lib.writeErr (resolvePath g) .parquet = none) :
    summarize_csv_file (create_sample_data lib env fs f n).2 f =
      "CSV file '" ++ f ++ "' has " ++ toString n ++
        " rows and 5 columns. Columns: id, name, score, category, created_date" ∧
    summarize_parquet_file (create_sample_data lib env fs g n).2 g =
      "Parquet file '" ++ g ++ "' has " ++ toString n ++
        " rows and 5 columns. Columns: id, name, score, category, created_date" := by
  constructor
  · have hstep : (create_sample_data lib env fs f n).2 =
        Fs.write fs (resolvePath f) (.file (.table .csv (sampleTable env n))) := by
      unfold create_sample_data
      simp [hf, hwf]
    unfold summarize_csv_file read_csv_summary
    rw [hstep, Fs.lookup_write_self]
    have hrows : (sampleTable env n).rows.length = n := by
      simp [sampleTable]
    have h5 : (sampleTable env n).columns.length = 5 := rfl
    have hcols : toString (sampleTable env n).columns.length = "5" := by
      rw [h5]
      exact rfl
    have hI : String.intercalate ", " (sampleTable env n).columns =
        "id, name, score, category, created_date" := rfl
    simp only [readEntryAs, reduceIte, hrows, hcols, hI]
    simp [String.append_assoc]
  · have hgc : strEndsWith g ".csv" = false := endsWith_parquet_not_csv g hg
    have hstep : (create_sample_data lib env fs g n).2 =
        Fs.write fs (resolvePath g) (.file (.table .parquet (sampleTable env n))) := by
      unfold create_sample_data
      simp [hgc, hg, hwg]
    unfold summarize_parquet_file read_parquet_summary
    rw [hstep, Fs.lookup_write_self]
    have hrows : (sampleTable env n).rows.length = n := by
      simp [sampleTable]
    have h5 : (sampleTable env n).columns.length = 5 := rfl
    have hcols : toString (sampleTable env n).columns.length = "5" := by
      rw [h5]
      exact rfl
    have hI : String.intercalate ", " (sampleTable env n).columns =
        "id, name, score, category, created_date" := rfl
    simp only [readEntryAs, reduceIte, hrows, hcols, hI]
    simp [String.append_assoc]

/-- Witness for C2 at the spec's own example: 3 rows, `t.csv` and
`t.parquet`. -/
theorem create_then_summarize_roundtrip_witness :
    summarize_csv_file (create_sample_data lib0 env0 [] "t.csv" 3).2 "t.csv" =
      "CSV file 't.csv' has 3 rows and 5 columns. Columns: id, name, score, category, created_date" ∧
    summarize_parquet_file (create_sample_data lib0 env0 [] "t.parquet" 3).2 "t.parquet" =
      "Parquet file 't.parquet' has 3 rows and 5 columns. Columns: id, name, score, category, created_date" :=
  create_then_summarize_roundtrip lib0 env0 [] "t.csv" "t.parquet" 3
    (by decide) (by decide) rfl rfl

/-- Claim C10: create_sample_data never checks whether its target already
exists: on a filename with a supported suffix that currently names a file,
a succeeding write replaces that file's contents with the freshly generated
table and the call returns the success confirmation string. -/
theorem create_overwrites_existing (lib : ExtLib) (env : RandEnv) (fs : Fs)
    (f : String) (n : Nat) (old : FileContent)
    (_hold : Fs.lookup fs (resolvePath f) = some (.file old)) :
    (strEndsWith f ".csv" = true → lib.writeErr (resolvePath f) .csv = none →
      (create_sample_data lib env fs f n).1 =
        "Created " ++ f ++ " with " ++ toString n ++ " rows and 5 columns." ∧
      Fs.lookup (create_sample_data lib env fs f n).2 (resolvePath f) =
        some (.file (.table .csv (sampleTable env n)))) ∧
    (strEndsWith f ".parquet" = true → lib.writeErr (resolvePath f) .parquet = none →
      (create_sample_data lib env fs f n).1 =
        "Created " ++ f ++ " with " ++ toString n ++ " rows and 5 columns." ∧
      Fs.lookup (create_sample_data lib env fs f n).2 (resolvePath f) =
        some (.file (.table .parquet (sampleTable env n)))) := by
  constructor
  · intro hf hwf
    have h5 : (sampleTable env n).columns.length = 5 := rfl
    have hcols : toString (sampleTable env n).columns.length = "5" := by
      rw [h5]
      exact rfl
    constructor
    · unfold create_sample_data
      simp only [hf, hwf]
      simp [hcols, String.append_assoc]
    · have hstep : (create_sample_data lib env fs f n).2 =
          Fs.write fs (resolvePath f) (.file (.table .csv (sampleTable env n))) := by
        unfold create_sample_data
        simp [hf, hwf]
      rw [hstep, Fs.lookup_write_self]
  · intro hf hwf
    have hfc : strEndsWith f ".csv" = false := endsWith_parquet_not_csv f hf
    have h5 : (sampleTable env n).columns.length = 5 := rfl
    have hcols : toString (sampleTable env n).columns.length = "5" := by
      rw [h5]
      exact rfl
    constructor
    · unfold create_sample_data
      simp only [hfc, hf, hwf]
      simp [hcols, String.append_assoc]
    · have hstep : (create_sample_data lib env fs f n).2 =
          Fs.write fs (resolvePath f) (.file (.table .parquet (sampleTable env n))) := by
        unfold create_sample_data
        simp [hfc, hf, hwf]
      rw [hstep, Fs.lookup_write_self]

/-- Witness for C10: overwriting the existing `sample.csv`. -/
theorem create_overwrites_existing_witness :
    (create_sample_data lib0 env0 fsCsv "sample.csv" 2).1 =
      "Created sample.csv with 2 rows and 5 columns." ∧
    Fs.lookup (create_sample_data lib0 env0 fsCsv "sample.csv" 2).2
        (resolvePath "sample.csv") =
      some (.file (.table .csv (sampleTable env0 2))) :=
  (create_overwrites_existing lib0 env0 fsCsv "sample.csv" 2 (.table .csv tbl0)
    (by decide)).1 (by decide) rfl

/-- Claim C3: every failure kind of the dataset operations — NotFound,
UnsupportedFormat, LoadFailure, WriteFailure, UnknownOperation — surfaces
as a descriptive result string; the handlers are total functions into
String, so none of these failures propagates as an exception or
protocol-level fault. -/
theorem error_taxonomy_descriptive_strings (lib : ExtLib) (env : RandEnv) (fs : Fs)
    (f op cause e : String) (n : Nat) :
    (Fs.lookup fs (resolvePath f) = none →
      read_csv_summary fs f = "Error: File '" ++ f ++ "' not found in data directory." ∧
      read_parquet_summary fs f = "Error: File '" ++ f ++ "' not found in data directory." ∧
      analyze_csv_data lib fs f op = "Error: File '" ++ f ++ "' not found.") ∧
    (strEndsWith f ".csv" = false → strEndsWith f ".parquet" = false →
      create_sample_data lib env fs f n =
        ("Error: Filename must end with .csv or .parquet", fs)) ∧
    (Fs.lookup fs (resolvePath f) = some (.file (.junk cause)) →
      read_csv_summary fs f = "Error reading CSV file '" ++ f ++ "': " ++ cause ∧
      read_parquet_summary fs f = "Error reading Parquet file '" ++ f ++ "': " ++ cause ∧
      analyze_csv_data lib fs f op = "Error analyzing " ++ f ++ ": " ++ cause) ∧
    (strEndsWith f ".csv" = true → lib.writeErr (resolvePath f) .csv = some e →
      create_sample_data lib env fs f n = ("Error creating sample data: " ++ e, fs)) ∧
    (∀ t : Table, Fs.lookup fs (resolvePath f) = some (.file (.table .csv t)) →
      op ≠ "describe" → op ≠ "head" → op ≠ "info" → op ≠ "columns" →
      analyze_csv_data lib fs f op =
        "Unknown operation: " ++ op ++ ". Available: describe, head, info, columns") := by
  refine ⟨?_, ?_, ?_, ?_, ?_⟩
  · intro h
    refine ⟨?_, ?_, ?_⟩
    · unfold read_csv_summary
      rw [h]
    · unfold read_parquet_summary
      rw [h]
    · unfold analyze_csv_data
      rw [h]
  · intro h1 h2
    unfold create_sample_data
    simp [h1, h2]
  · intro h
    refine ⟨?_, ?_, ?_⟩
    · unfold read_csv_summary
      rw [h]
      simp [readEntryAs]
    · unfold read_parquet_summary
      rw [h]
      simp [readEntryAs]
    · unfold analyze_csv_data
      rw [h]
      simp [readEntryAs]
  · intro h1 hw
    unfold create_sample_data
    simp [h1, hw]
  · intro t hlook h1 h2 h3 h4
    unfold analyze_csv_data
    rw [hlook]
    simp [readEntryAs, h1, h2, h3, h4]

/-- Witness for C3: each of the five failure kinds at a concrete input. -/
theorem error_taxonomy_descriptive_strings_witness :
    read_csv_summary [] "gone.csv" = "Error: File 'gone.csv' not found in data directory." ∧
    (create_sample_data lib0 env0 [] "x.txt" 1).1 =
      "Error: Filename must end with .csv or .parquet" ∧
    read_csv_summary fsJunk "bad.csv" = "Error reading CSV file 'bad.csv': parse error" ∧
    (create_sample_data libFail env0 [] "t.csv" 1).1 =
      "Error creating sample data: disk full" ∧
    analyze_csv_data lib0 fsCsv "sample.csv" "bogus" =
      "Unknown operation: bogus. Available: describe, head, info, columns" := by
  refine ⟨?_, ?_, ?_, ?_, ?_⟩
  · exact ((error_taxonomy_descriptive_strings lib0 env0 [] "gone.csv" "x" "c" "e" 1).1
      (by decide)).1
  · exact congrArg Prod.fst
      ((error_taxonomy_descriptive_strings lib0 env0 [] "x.txt" "x" "c" "e" 1).2.1
        (by decide) (by decide))
  · exact ((error_taxonomy_descriptive_strings lib0 env0 fsJunk "bad.csv" "x" "parse error" "e" 1).2.2.1
      (by decide)).1
  · exact congrArg Prod.fst
      ((error_taxonomy_descriptive_strings libFail env0 [] "t.csv" "x" "c" "disk full" 1).2.2.2.1
        (by decide) rfl)
  · exact (error_taxonomy_descriptive_strings lib0 env0 fsCsv "sample.csv" "bogus" "c" "e" 1).2.2.2.2
      tbl0 (by decide) (by decide) (by decide) (by decide) (by decide)

/-- Counterexample to C4 as stated, in both directions: a data directory
that contains one subdirectory and no regular file at all does not return
the fixed no-files sentence — the raw glob result is non-empty, so the code
returns the listing header with an empty name list — and a data directory
whose only regular file is hidden returns the no-files sentence instead of
listing that file, because `glob("*")` skips dotfiles. -/
theorem list_data_files_counterexample :
    (∀ pe ∈ fsDirOnly, pe.2.isFile = false) ∧
    list_data_files fsDirOnly ≠ "No data files found in the data directory." ∧
    list_data_files fsDirOnly = "Available data files: " ∧
    fsHidden.map (fun pe => pe.2.isFile) = [true] ∧
    list_data_files fsHidden = "No data files found in the data directory." := by decide

/-- Claim C4, amended: list_data_files returns `Available data files: `
followed by the comma-joined names of exactly the non-hidden regular files
among the data directory's direct children (`glob("*")` skips dotfiles),
and it returns the fixed no-files sentence exactly when the directory has
no non-hidden entries of any kind — a directory containing only
subdirectories (or only hidden files) yields the listing header with an
empty name list instead.  It has no error path. -/
theorem list_data_files_spec (fs : Fs) :
    (list_data_files fs = "No data files found in the data directory." ↔ globStar fs = []) ∧
    (globStar fs ≠ [] →
      list_data_files fs = "Available data files: " ++
        String.intercalate ", " (visibleFileNames fs)) := by
  have hmain : ∀ _hne : globStar fs ≠ [],
      list_data_files fs = "Available data files: " ++
        String.intercalate ", " (visibleFileNames fs) := by
    intro hne
    have hemp : (globStar fs).isEmpty = false := by
      cases hgl : globStar fs with
      | nil => exact absurd hgl hne
      | cons a l => rfl
    unfold list_data_files
    rw [← visibleFileNames_eq]
    simp only [hemp, Bool.false_eq_true, if_false]
  constructor
  · constructor
    · intro hres
      by_cases hne : globStar fs = []
      · exact hne
      · rw [hmain hne] at hres
        exact absurd hres (ne_of_data_head _ _ 'A' 'N' rfl rfl (by decide))
    · intro hgl
      unfold list_data_files
      rw [hgl]
      rfl
  · exact hmain

/-- Witness for C4: the iff and the listing shape at a concrete directory
holding one regular file. -/
theorem list_data_files_spec_witness :
    (list_data_files fsCsv = "No data files found in the data directory." ↔
      globStar fsCsv = []) ∧
    list_data_files fsCsv = "Available data files: " ++
      String.intercalate ", " (visibleFileNames fsCsv) :=
  ⟨(list_data_files_spec fsCsv).1, (list_data_files_spec fsCsv).2 (by decide)⟩

/-- Counterexample to C1 as stated: the code joins DATA_DIR and the caller's
filename with no traversal guard, so an absolute filename is honored
verbatim — create_sample_data writes `/etc/evil.csv`, a path outside
DATA_DIR — and a filename made of `..` segments resolves outside DATA_DIR
as well. -/
theorem sandbox_escape_counterexample :
    Fs.lookup (create_sample_data lib0 env0 [] "/etc/evil.csv" 1).2 ["etc", "evil.csv"] =
      some (.file (.table .csv (sampleTable env0 1))) ∧
    ¬ insideData ["etc", "evil.csv"] ∧
    resolvePath "../../../etc/passwd" = ["etc", "passwd"] ∧
    ¬ insideData (resolvePath "../../../etc/passwd") := by decide

/-- Claim C1, amended: every operation accesses exactly
`resolvePath filename`.  For relative filenames without a `..` segment that
path is inside DATA_DIR, create_sample_data never changes any path outside
DATA_DIR, and the reading operations depend only on DATA_DIR's contents.
The code has no traversal guard, so absolute filenames or filenames with
`..` segments can reach outside the base directory (see the
counterexample). -/
theorem sandbox_for_plain_filenames (lib : ExtLib) (env : RandEnv) (fs fs2 : Fs)
    (filename op : String) (n : Nat)
    (habs : isAbsolute filename = false)
    (hdd : ".." ∉ pathParts filename) :
    insideData (resolvePath filename) ∧
    (∀ q : PathC, ¬ insideData q →
      Fs.lookup (create_sample_data lib env fs filename n).2 q = Fs.lookup fs q) ∧
    ((∀ p : PathC, insideData p → Fs.lookup fs p = Fs.lookup fs2 p) →
      read_csv_summary fs filename = read_csv_summary fs2 filename ∧
      read_parquet_summary fs filename = read_parquet_summary fs2 filename ∧
      analyze_csv_data lib fs filename op = analyze_csv_data lib fs2 filename op) := by
  have hin : insideData (resolvePath filename) := by
    unfold resolvePath
    rw [habs]
    simp only [Bool.false_eq_true, if_false]
    unfold normalizeComponents
    rw [List.foldl_append]
    have hbase : List.foldl normStep [] dataDir = dataDir := by decide
    rw [hbase]
    exact foldl_normStep_isPrefix (pathParts filename) dataDir hdd
  refine ⟨hin, ?_, ?_⟩
  · intro q hq
    have hqne : q ≠ resolvePath filename := fun h => hq (h ▸ hin)
    unfold create_sample_data
    by_cases h1 : strEndsWith filename ".csv" = true
    · cases hw : lib.writeErr (resolvePath filename) .csv with
      | some e => simp [h1, hw]
      | none => simp [h1, hw, Fs.lookup_write_ne fs _ q _ hqne]
    · by_cases h2 : strEndsWith filename ".parquet" = true
      · cases hw : lib.writeErr (resolvePath filename) .parquet with
        | some e => simp [h1, h2, hw]
        | none => simp [h1, h2, hw, Fs.lookup_write_ne fs _ q _ hqne]
      · simp [h1, h2]
  · intro hagree
    have hl := hagree (resolvePath filename) hin
    unfold read_csv_summary read_parquet_summary analyze_csv_data
    rw [hl]
    exact ⟨rfl, rfl, rfl⟩

/-- Witness for C1: a plain relative filename resolves inside DATA_DIR and
a create touches nothing outside it. -/
theorem sandbox_for_plain_filenames_witness :
    insideData (resolvePath "t.csv") ∧
    Fs.lookup (create_sample_data lib0 env0 fsCsv "t.csv" 2).2 ["etc", "passwd"] =
      Fs.lookup fsCsv ["etc", "passwd"] := by
  have h := sandbox_for_plain_filenames lib0 env0 fsCsv fsCsv "t.csv" "describe" 2
    (by decide) (by decide)
  exact ⟨h.1, h.2.1 ["etc", "passwd"] (by decide)⟩
